import Mathlib

/-!
Verification of the Java vulnerability-detection HTTP service (`app.py`).

The service wraps a pretrained two-class sequence classifier: at startup it
loads a tokenizer and a model into process-wide globals; `POST /analyze`
tokenizes the request's code (truncated to 512 tokens), runs a forward pass
producing two logits, applies softmax, picks the arg-max class, and returns
a JSON verdict.  We embed the service shallowly: the tokenizer and the model
are abstract fallible functions (an `Except.error` models a raised Python
exception), logits are pairs of reals, and each handler is a pure function
of the global state and the request.
-/

/-- A tokenizer maps source text to a list of token ids; `Except.error e`
models a Python exception with message `e` raised during tokenization. -/
def Tokenizer : Type := String → Except String (List Nat)

/-- A classification model maps an encoded token sequence to two raw logits
(class index 0 = safe, class index 1 = vulnerable); `Except.error e` models
a Python exception raised during the forward pass.  Moving tensors
`.to(device)` does not change their values, so the device does not appear. -/
def Model : Type := List Nat → Except String (Real × Real)

/-- The process-wide globals of `app.py` (lines 39-41): `tokenizer`, `model`
and `device`, all initialized to `None`.  The device is kept as its string
rendering (`str(device)`), which is all the service ever exposes. -/
structure ServerState where
  tokenizer : Option Tokenizer
  model : Option Model
  device : Option String

/-- The globals before the startup hook runs: all three are `None`. -/
def initialState : ServerState := ⟨none, none, none⟩

/-- `MODEL_PATH` from `app.py` line 38. -/
def MODEL_PATH : String := "./model/java-vulnerability-detector-final"

/-- Python's `HTTPException(status_code=..., detail=...)`. -/
structure HTTPException where
  status_code : Nat
  detail : String
deriving DecidableEq

/-- Request body of `POST /analyze` (`CodeAnalysisRequest` in `app.py`):
`code` is required, `filename` defaults to the placeholder. -/
structure CodeAnalysisRequest where
  code : String
  filename : String := "unknown.java"

/-- Response body of `POST /analyze` (`CodeAnalysisResponse` in `app.py`). -/
structure CodeAnalysisResponse where
  is_vulnerable : Bool
  confidence : Real
  prediction : String
  filename : String

/-- The tokenizer call of `app.py` lines 187-193:
`tokenizer(code, return_tensors="pt", padding=True, truncation=True,
max_length=512)`.  Truncation keeps the first 512 token ids; padding a
batch of one sequence to its own longest member adds nothing. -/
def hfTokenize (tok : Tokenizer) (text : String) : Except String (List Nat) :=
  (tok text).map (fun ids => ids.take 512)

/-- `torch.softmax(logits, dim=-1)` on a `[1, 2]` logits tensor: the pair of
probabilities `(e^l0 / (e^l0 + e^l1), e^l1 / (e^l0 + e^l1))`. -/
noncomputable def softmax2 (l : Real × Real) : Real × Real :=
  (Real.exp l.1 / (Real.exp l.1 + Real.exp l.2),
   Real.exp l.2 / (Real.exp l.1 + Real.exp l.2))

/-- `torch.argmax(logits, dim=-1).item()` on two logits: the index of the
maximal value, the first one on a tie. -/
noncomputable def argmax2 (l : Real × Real) : Nat :=
  if l.1 < l.2 then 1 else 0

/-- `probabilities[0][i]`: the softmax probability of class `i`. -/
noncomputable def prob2 (l : Real × Real) (i : Nat) : Real :=
  if i = 1 then (softmax2 l).2 else (softmax2 l).1

/-- Python's round-half-to-even of a real number to an integer. -/
noncomputable def roundHalfEven (x : Real) : Int :=
  if x - ⌊x⌋ < 1 / 2 then ⌊x⌋
  else if 1 / 2 < x - ⌊x⌋ then ⌊x⌋ + 1
  else if ⌊x⌋ % 2 = 0 then ⌊x⌋ else ⌊x⌋ + 1

/-- Python's `round(x, 4)`: round to four decimal digits, ties to even. -/
noncomputable def roundTo4 (x : Real) : Real :=
  (roundHalfEven (x * 10000) : Real) / 10000

/-- The body of the `try:` block of `analyze_code` (`app.py` lines 182-218),
given the loaded tokenizer and model, with the `except` clause of lines
220-225 mapping any raised exception `e` to
`HTTPException(500, f"Analysis failed: {e}")`. -/
noncomputable def analyzeLoaded (tok : Tokenizer) (m : Model)
    (request : CodeAnalysisRequest) : Except HTTPException CodeAnalysisResponse :=
  match hfTokenize tok request.code with
  | .error e => .error ⟨500, "Analysis failed: " ++ e⟩
  | .ok input_ids =>
    match m input_ids with
    | .error e => .error ⟨500, "Analysis failed: " ++ e⟩
    | .ok logits =>
      let prediction_idx := argmax2 logits
      let confidence := prob2 logits prediction_idx
      let is_vulnerable : Bool := prediction_idx == 1
      let prediction_label : String := if is_vulnerable then "VULNERABLE" else "SAFE"
      .ok { is_vulnerable := is_vulnerable
            confidence := roundTo4 confidence
            prediction := prediction_label
            filename := request.filename }

/-- `POST /analyze` (`app.py` lines 151-225): answer 503 when the model or
the tokenizer global is `None`, otherwise run the analysis body. -/
noncomputable def analyze_code (st : ServerState) (request : CodeAnalysisRequest) :
    Except HTTPException CodeAnalysisResponse :=
  match st.model, st.tokenizer with
  | some m, some tok => analyzeLoaded tok m request
  | _, _ => .error ⟨503, "Model not loaded. Please wait for startup to complete."⟩

/-- The `analyze` handler seen as a state transformer over the globals: the
handler body contains no assignment to `tokenizer`, `model` or `device`
(no `global` statement appears in `analyze_code`), so it returns the state
it was given. -/
noncomputable def analyzeHandler (st : ServerState) (request : CodeAnalysisRequest) :
    Except HTTPException CodeAnalysisResponse × ServerState :=
  (analyze_code st request, st)

/-- Response of `GET /health` (`app.py` lines 137-148). -/
structure HealthResponse where
  status : String
  model_loaded : Bool
  tokenizer_loaded : Bool
  device : String
  ready : Bool

/-- `GET /health`: reports which globals are populated; `str(None)` is the
string `"None"`. -/
def health_check (st : ServerState) : HealthResponse :=
  { status := "healthy"
    model_loaded := st.model.isSome
    tokenizer_loaded := st.tokenizer.isSome
    device := match st.device with | some d => d | none => "None"
    ready := st.model.isSome && st.tokenizer.isSome }

/-- The environment the startup hook runs against: whether
`torch.cuda.is_available()` holds, and the two external loads
(`AutoTokenizer.from_pretrained` and
`AutoModelForSequenceClassification.from_pretrained`), each of which may
raise (`Except.error`). -/
structure LoadEnv where
  cuda_available : Bool
  from_pretrained_tokenizer : Except String Tokenizer
  from_pretrained_model : String → Except String Model

/-- Outcome of running the startup hook: the final values of the globals,
and `raised = some msg` when the hook re-raised a `RuntimeError` (in which
case the ASGI lifespan aborts and the server never accepts requests). -/
structure StartupOutcome where
  state : ServerState
  raised : Option String

/-- The startup hook `load_model` (`app.py` lines 44-82), statement by
statement: set `device`; load the tokenizer; load the model from
`MODEL_PATH`.  Any exception is caught and re-raised as
`RuntimeError(f"Model loading failed: {e}")`; the globals keep whatever had
been assigned up to that point. -/
def load_model (env : LoadEnv) : StartupOutcome :=
  let dev : String := if env.cuda_available then "cuda" else "cpu"
  let st1 : ServerState := { initialState with device := some dev }
  match env.from_pretrained_tokenizer with
  | .error e => ⟨st1, some ("Model loading failed: " ++ e)⟩
  | .ok tok =>
    let st2 : ServerState := { st1 with tokenizer := some tok }
    match env.from_pretrained_model MODEL_PATH with
    | .error e => ⟨st2, some ("Model loading failed: " ++ e)⟩
    | .ok m => ⟨{ st2 with model := some m }, none⟩

/-- The global states visible to request handlers.  Uvicorn accepts traffic
only after the startup hook returns without raising, so the first visible
state is the state a non-raising `load_model` produced; afterwards each
`analyze` request transforms the state through `analyzeHandler`. -/
inductive Reachable (env : LoadEnv) : ServerState → Prop
  | startup_ok (st : ServerState) (h : load_model env = ⟨st, none⟩) : Reachable env st
  | handler_step (st : ServerState) (request : CodeAnalysisRequest)
      (out : Except HTTPException CodeAnalysisResponse) (st' : ServerState)
      (hr : Reachable env st) (h : analyzeHandler st request = (out, st')) :
      Reachable env st'

/-- The verdict part of an `analyze` result: everything except the echoed
filename. -/
noncomputable def verdictOf (r : Except HTTPException CodeAnalysisResponse) :
    Except HTTPException (Bool × Real × String) :=
  r.map (fun resp => (resp.is_vulnerable, resp.confidence, resp.prediction))

/-! ### Numeric helper lemmas: softmax, arg-max, rounding -/

lemma expSum_pos (l : Real × Real) : 0 < Real.exp l.1 + Real.exp l.2 := by
  positivity

lemma prob2_nonneg (l : Real × Real) (i : Nat) : 0 ≤ prob2 l i := by
  unfold prob2 softmax2
  split <;> positivity

lemma prob2_le_one (l : Real × Real) (i : Nat) : prob2 l i ≤ 1 := by
  have h := expSum_pos l
  have h1 := Real.exp_pos l.1
  have h2 := Real.exp_pos l.2
  unfold prob2 softmax2
  split <;> rw [div_le_one h] <;> linarith

lemma prob2_sum (l : Real × Real) : prob2 l 0 + prob2 l 1 = 1 := by
  have h := (expSum_pos l).ne'
  unfold prob2 softmax2
  simp only [OfNat.ofNat_ne_one, if_false, if_pos rfl]
  field_simp

lemma prob2_zero (l : Real × Real) :
    prob2 l 0 = Real.exp l.1 / (Real.exp l.1 + Real.exp l.2) := by
  simp [prob2, softmax2]

lemma prob2_one (l : Real × Real) :
    prob2 l 1 = Real.exp l.2 / (Real.exp l.1 + Real.exp l.2) := by
  simp [prob2, softmax2]

lemma prob2_argmax_ge_half (l : Real × Real) : 1 / 2 ≤ prob2 l (argmax2 l) := by
  have h1 := Real.exp_pos l.1
  have h2 := Real.exp_pos l.2
  have hS := expSum_pos l
  unfold argmax2
  by_cases h : l.1 < l.2
  · have hexp : Real.exp l.1 ≤ Real.exp l.2 := (Real.exp_lt_exp.mpr h).le
    rw [if_pos h, prob2_one, le_div_iff₀ hS]
    linarith
  · have hexp : Real.exp l.2 ≤ Real.exp l.1 :=
      Real.exp_le_exp.mpr (not_lt.mp h)
    rw [if_neg h, prob2_zero, le_div_iff₀ hS]
    linarith

lemma prob2_argmax_eq_max (l : Real × Real) :
    prob2 l (argmax2 l) = max (prob2 l 0) (prob2 l 1) := by
  have hS := expSum_pos l
  unfold argmax2
  by_cases h : l.1 < l.2
  · have hexp : Real.exp l.1 ≤ Real.exp l.2 := (Real.exp_lt_exp.mpr h).le
    have hle : prob2 l 0 ≤ prob2 l 1 := by
      rw [prob2_zero, prob2_one]
      exact div_le_div_of_nonneg_right hexp hS.le
    rw [if_pos h, max_eq_right hle]
  · have hexp : Real.exp l.2 ≤ Real.exp l.1 :=
      Real.exp_le_exp.mpr (not_lt.mp h)
    have hle : prob2 l 1 ≤ prob2 l 0 := by
      rw [prob2_zero, prob2_one]
      exact div_le_div_of_nonneg_right hexp hS.le
    rw [if_neg h, max_eq_left hle]

lemma roundHalfEven_nonneg (x : Real) (hx : 0 ≤ x) : 0 ≤ roundHalfEven x := by
  have hf : (0 : Int) ≤ ⌊x⌋ := Int.floor_nonneg.mpr hx
  unfold roundHalfEven
  split
  · exact hf
  · split
    · omega
    · split <;> omega

lemma roundHalfEven_le (x : Real) (n : Int) (hx : x ≤ (n : Real)) :
    roundHalfEven x ≤ n := by
  have hf : ⌊x⌋ ≤ n := by
    have := Int.floor_le_floor hx
    simpa using this
  unfold roundHalfEven
  split
  · exact hf
  · rename_i hlt
    push_neg at hlt
    have hflt : ⌊x⌋ < n := by
      by_contra hcon
      push_neg at hcon
      have hfn : ⌊x⌋ = n := le_antisymm hf hcon
      have : x - (⌊x⌋ : Real) ≤ 0 := by
        rw [hfn]; linarith
      linarith
    split
    · omega
    · split <;> omega

lemma roundTo4_nonneg (x : Real) (hx : 0 ≤ x) : 0 ≤ roundTo4 x := by
  unfold roundTo4
  have : (0 : Int) ≤ roundHalfEven (x * 10000) :=
    roundHalfEven_nonneg _ (by positivity)
  have : (0 : Real) ≤ (roundHalfEven (x * 10000) : Real) := by
    exact_mod_cast this
  positivity

lemma roundTo4_le_one (x : Real) (hx : x ≤ 1) : roundTo4 x ≤ 1 := by
  unfold roundTo4
  have h : roundHalfEven (x * 10000) ≤ (10000 : Int) := by
    apply roundHalfEven_le
    push_cast
    linarith
  rw [div_le_one (by norm_num)]
  exact_mod_cast h

/-! ### Structural lemmas about the analyze handler -/

lemma analyze_code_loaded (st : ServerState) (tok : Tokenizer) (m : Model)
    (request : CodeAnalysisRequest)
    (htok : st.tokenizer = some tok) (hm : st.model = some m) :
    analyze_code st request = analyzeLoaded tok m request := by
  unfold analyze_code
  rw [hm, htok]

lemma analyze_code_not_loaded (st : ServerState) (request : CodeAnalysisRequest)
    (h : st.model = none ∨ st.tokenizer = none) :
    analyze_code st request =
      .error ⟨503, "Model not loaded. Please wait for startup to complete."⟩ := by
  unfold analyze_code
  rcases h with h | h
  · rw [h]
  · rw [h]
    cases st.model <;> rfl

lemma analyzeLoaded_ok (tok : Tokenizer) (m : Model) (request : CodeAnalysisRequest)
    (ids : List Nat) (logits : Real × Real)
    (hids : hfTokenize tok request.code = .ok ids) (hlog : m ids = .ok logits) :
    analyzeLoaded tok m request =
      .ok { is_vulnerable := argmax2 logits == 1
            confidence := roundTo4 (prob2 logits (argmax2 logits))
            prediction := if argmax2 logits == 1 then "VULNERABLE" else "SAFE"
            filename := request.filename } := by
  simp only [analyzeLoaded, hids, hlog]

lemma analyzeLoaded_tok_error (tok : Tokenizer) (m : Model)
    (request : CodeAnalysisRequest) (e : String)
    (h : hfTokenize tok request.code = .error e) :
    analyzeLoaded tok m request = .error ⟨500, "Analysis failed: " ++ e⟩ := by
  simp only [analyzeLoaded, h]

lemma analyzeLoaded_model_error (tok : Tokenizer) (m : Model)
    (request : CodeAnalysisRequest) (ids : List Nat) (e : String)
    (hids : hfTokenize tok request.code = .ok ids) (h : m ids = .error e) :
    analyzeLoaded tok m request = .error ⟨500, "Analysis failed: " ++ e⟩ := by
  simp only [analyzeLoaded, hids, h]

lemma analyzeLoaded_error_status (tok : Tokenizer) (m : Model)
    (request : CodeAnalysisRequest) (err : HTTPException)
    (h : analyzeLoaded tok m request = .error err) : err.status_code = 500 := by
  rcases htk : hfTokenize tok request.code with e | ids
  · simp only [analyzeLoaded, htk] at h
    cases h
    rfl
  · rcases hmo : m ids with e | logits
    · simp only [analyzeLoaded, htk, hmo] at h
      cases h
      rfl
    · simp only [analyzeLoaded, htk, hmo] at h
      simp at h

lemma analyzeLoaded_verdict_of_code (tok : Tokenizer) (m : Model)
    (req₁ req₂ : CodeAnalysisRequest) (h : req₁.code = req₂.code) :
    verdictOf (analyzeLoaded tok m req₁) = verdictOf (analyzeLoaded tok m req₂) := by
  rcases htk : hfTokenize tok req₁.code with e | ids
  · rw [analyzeLoaded_tok_error tok m req₁ e htk,
        analyzeLoaded_tok_error tok m req₂ e (h ▸ htk)]
  · rcases hmo : m ids with e | logits
    · rw [analyzeLoaded_model_error tok m req₁ ids e htk hmo,
          analyzeLoaded_model_error tok m req₂ ids e (h ▸ htk) hmo]
    · rw [analyzeLoaded_ok tok m req₁ ids logits htk hmo,
          analyzeLoaded_ok tok m req₂ ids logits (h ▸ htk) hmo]
      rfl

lemma analyzeHandler_state (st : ServerState) (request : CodeAnalysisRequest) :
    (analyzeHandler st request).2 = st := rfl

/-- The successful response the handler builds from the logits of the
forward pass (the record of `app.py` lines 206-218). -/
noncomputable def responseOf (logits : Real × Real) (fn : String) : CodeAnalysisResponse :=
  { is_vulnerable := argmax2 logits == 1
    confidence := roundTo4 (prob2 logits (argmax2 logits))
    prediction := if argmax2 logits == 1 then "VULNERABLE" else "SAFE"
    filename := fn }

/-- The response contract of `POST /analyze`: a verdict label drawn from the
two fixed strings, consistent with the boolean, a confidence in the unit
interval, and the request's filename echoed back. -/
def WellFormedResponse (request : CodeAnalysisRequest)
    (resp : CodeAnalysisResponse) : Prop :=
  (resp.prediction = "VULNERABLE" ∨ resp.prediction = "SAFE")
  ∧ (resp.is_vulnerable = true ↔ resp.prediction = "VULNERABLE")
  ∧ 0 ≤ resp.confidence ∧ resp.confidence ≤ 1
  ∧ resp.filename = request.filename

lemma responseOf_vuln_iff (logits : Real × Real) (fn : String) :
    (responseOf logits fn).is_vulnerable = true ↔ argmax2 logits = 1 := by
  simp [responseOf]

lemma responseOf_pred_iff (logits : Real × Real) (fn : String) :
    (responseOf logits fn).prediction = "VULNERABLE" ↔ argmax2 logits = 1 := by
  unfold responseOf
  by_cases h : argmax2 logits = 1 <;> simp [h]

lemma responseOf_wellformed (logits : Real × Real) (request : CodeAnalysisRequest) :
    WellFormedResponse request (responseOf logits request.filename) := by
  refine ⟨?_, ?_, roundTo4_nonneg _ (prob2_nonneg _ _),
    roundTo4_le_one _ (prob2_le_one _ _), rfl⟩
  · unfold responseOf
    by_cases h : argmax2 logits = 1 <;> simp [h]
  · unfold responseOf
    by_cases h : argmax2 logits = 1 <;> simp [h]

lemma analyzeLoaded_ok_responseOf (tok : Tokenizer) (m : Model)
    (request : CodeAnalysisRequest) (ids : List Nat) (logits : Real × Real)
    (hids : hfTokenize tok request.code = .ok ids) (hlog : m ids = .ok logits) :
    analyzeLoaded tok m request = .ok (responseOf logits request.filename) :=
  analyzeLoaded_ok tok m request ids logits hids hlog

lemma analyze_code_ok_filename (st : ServerState) (request : CodeAnalysisRequest)
    (resp : CodeAnalysisResponse) (h : analyze_code st request = .ok resp) :
    resp.filename = request.filename := by
  rcases hm : st.model with _ | m
  · rw [analyze_code_not_loaded st request (Or.inl hm)] at h
    cases h
  · rcases ht : st.tokenizer with _ | tok
    · rw [analyze_code_not_loaded st request (Or.inr ht)] at h
      cases h
    · rw [analyze_code_loaded st tok m request ht hm] at h
      rcases htk : hfTokenize tok request.code with e | ids
      · rw [analyzeLoaded_tok_error tok m request e htk] at h
        cases h
      · rcases hmo : m ids with e | logits
        · rw [analyzeLoaded_model_error tok m request ids e htk hmo] at h
          cases h
        · rw [analyzeLoaded_ok_responseOf tok m request ids logits htk hmo] at h
          injection h with h'
          subst h'
          rfl

lemma analyze_code_verdict_congr (st : ServerState)
    (req₁ req₂ : CodeAnalysisRequest) (h : req₁.code = req₂.code) :
    verdictOf (analyze_code st req₁) = verdictOf (analyze_code st req₂) := by
  rcases hm : st.model with _ | m
  · rw [analyze_code_not_loaded st req₁ (Or.inl hm),
      analyze_code_not_loaded st req₂ (Or.inl hm)]
  · rcases ht : st.tokenizer with _ | tok
    · rw [analyze_code_not_loaded st req₁ (Or.inr ht),
        analyze_code_not_loaded st req₂ (Or.inr ht)]
    · rw [analyze_code_loaded st tok m req₁ ht hm,
        analyze_code_loaded st tok m req₂ ht hm]
      exact analyzeLoaded_verdict_of_code tok m req₁ req₂ h

/-! ### Concrete fixtures used by the witnesses and the counterexample -/

/-- A tokenizer that encodes every input to a fixed short id sequence. -/
def tokFix : Tokenizer := fun _ => .ok [101, 2023, 102]

/-- A tokenizer that encodes every input to 600 token ids, beyond the
512-token truncation budget. -/
def tokLong : Tokenizer := fun _ => .ok (List.replicate 600 7)

/-- A tokenizer whose call raises an exception carrying internal detail. -/
def tokBoom : Tokenizer := fun _ => .error "division by zero in tensor op"

/-- A model that returns logits `(0, 1)` on every input. -/
def modelFix : Model := fun _ => .ok (0, 1)

/-- Globals after a successful load of `tokFix` and `modelFix`. -/
def stLoaded : ServerState := ⟨some tokFix, some modelFix, some "cpu"⟩

/-- Globals whose tokenizer raises on every call. -/
def stBoom : ServerState := ⟨some tokBoom, some modelFix, some "cpu"⟩

/-- Globals whose tokenizer always produces 600 token ids. -/
def stLong : ServerState := ⟨some tokLong, some modelFix, some "cpu"⟩

/-- A startup environment in which both external loads succeed. -/
def envFix : LoadEnv := ⟨false, .ok tokFix, fun _ => .ok modelFix⟩

/-- Two requests with identical code and distinct filenames. -/
def reqA : CodeAnalysisRequest := ⟨"int x = 0;", "A.java"⟩

/-- Second request: same code as `reqA`, different filename. -/
def reqB : CodeAnalysisRequest := ⟨"int x = 0;", "B.java"⟩

/-- A request whose code is the empty string. -/
def reqEmpty : CodeAnalysisRequest := ⟨"", "Empty.java"⟩

/-! ### The claims -/

/-- C1: whenever `POST /analyze` succeeds, the response maps class index 1
to "VULNERABLE" and class index 0 to "SAFE", `is_vulnerable` holds exactly
when the prediction is "VULNERABLE", the confidence is the selected class's
softmax probability rounded to four digits and lies in the unit interval,
and the filename is echoed unchanged (the request defaults it to
"unknown.java" when omitted). -/
theorem analyze_ok_response_contract (st : ServerState) (tok : Tokenizer)
    (m : Model) (request : CodeAnalysisRequest) (ids : List Nat)
    (logits : Real × Real)
    (htok : st.tokenizer = some tok) (hm : st.model = some m)
    (hids : hfTokenize tok request.code = .ok ids) (hlog : m ids = .ok logits) :
    analyze_code st request = .ok (responseOf logits request.filename)
    ∧ WellFormedResponse request (responseOf logits request.filename)
    ∧ ((responseOf logits request.filename).prediction = "VULNERABLE"
        ↔ argmax2 logits = 1)
    ∧ ((responseOf logits request.filename).is_vulnerable = true
        ↔ argmax2 logits = 1)
    ∧ (responseOf logits request.filename).confidence
        = roundTo4 (prob2 logits (argmax2 logits))
    ∧ ({ code := request.code } : CodeAnalysisRequest).filename = "unknown.java" := by
  refine ⟨?_, responseOf_wellformed logits request,
    responseOf_pred_iff logits request.filename,
    responseOf_vuln_iff logits request.filename, rfl, rfl⟩
  rw [analyze_code_loaded st tok m request htok hm]
  exact analyzeLoaded_ok_responseOf tok m request ids logits hids hlog

/-- C1 witness: the contract instantiated at a concrete loaded state. -/
theorem analyze_ok_response_contract_witness :
    analyze_code stLoaded reqA = .ok (responseOf (0, 1) reqA.filename)
    ∧ WellFormedResponse reqA (responseOf (0, 1) reqA.filename) :=
  have h := analyze_ok_response_contract stLoaded tokFix modelFix reqA
    [101, 2023, 102] (0, 1) rfl rfl rfl rfl
  ⟨h.1, h.2.1⟩

/-- C2: in every global state visible to request handlers, the tokenizer
and the model are both populated (so the Model Resource is all-or-nothing),
and if the startup hook raised then no state at all is visible to request
handlers: the failed load aborts startup instead of serving a
half-initialized resource. -/
theorem modelResource_all_or_nothing (env : LoadEnv) :
    (∀ st, Reachable env st →
      st.tokenizer.isSome = true ∧ st.model.isSome = true)
    ∧ ((load_model env).raised.isSome = true → ∀ st, ¬ Reachable env st) := by
  constructor
  · intro st h
    induction h with
    | startup_ok st h =>
      rcases htk : env.from_pretrained_tokenizer with e | tok
      · simp [load_model, htk] at h
      · rcases hmo : env.from_pretrained_model MODEL_PATH with e | m
        · simp [load_model, htk, hmo] at h
        · simp only [load_model, htk, hmo] at h
          injection h with h1 h2
          subst h1
          exact ⟨rfl, rfl⟩
    | handler_step st request out st' hr h ih =>
      have hst : st = st' := by
        have := congrArg Prod.snd h
        simpa [analyzeHandler] using this
      exact hst ▸ ih
  · intro hraised st h
    induction h with
    | startup_ok st h =>
      rw [h] at hraised
      simp at hraised
    | handler_step st request out st' hr h ih =>
      exact ih

/-- C2 witness: a successful startup yields a fully populated resource. -/
theorem modelResource_all_or_nothing_witness :
    stLoaded.tokenizer.isSome = true ∧ stLoaded.model.isSome = true :=
  (modelResource_all_or_nothing envFix).1 stLoaded
    (Reachable.startup_ok stLoaded rfl)

/-- C3: `POST /analyze` answers 503 exactly when `GET /health` would report
`ready = false`, and `ready` is the conjunction of the two loaded flags; in
particular with both loaded the 503 branch is unreachable, and the
not-ready case returns a response rather than crashing. -/
theorem analyze_503_iff_not_ready (st : ServerState) (request : CodeAnalysisRequest) :
    ((∃ d, analyze_code st request = .error ⟨503, d⟩)
      ↔ (health_check st).ready = false)
    ∧ (health_check st).ready
        = ((health_check st).tokenizer_loaded && (health_check st).model_loaded) := by
  refine ⟨?_, by simp [health_check, Bool.and_comm]⟩
  rcases hm : st.model with _ | m
  · simp only [health_check, hm, Option.isSome_none, Bool.false_and]
    exact iff_of_true ⟨_, analyze_code_not_loaded st request (Or.inl hm)⟩ trivial
  · rcases ht : st.tokenizer with _ | tok
    · simp only [health_check, hm, ht, Option.isSome_none, Option.isSome_some,
        Bool.and_false]
      exact iff_of_true ⟨_, analyze_code_not_loaded st request (Or.inr ht)⟩ trivial
    · simp only [health_check, hm, ht, Option.isSome_some, Bool.and_self]
      apply iff_of_false
      · rintro ⟨d, hd⟩
        rw [analyze_code_loaded st tok m request ht hm] at hd
        have := analyzeLoaded_error_status tok m request _ hd
        simp at this
      · simp

/-- C4: the verdict of `POST /analyze` is a function of the code text
alone: against one loaded state, two requests with identical code yield
identical `is_vulnerable`, `confidence` and `prediction`. -/
theorem analyze_deterministic_in_code (st : ServerState)
    (req₁ req₂ : CodeAnalysisRequest) (h : req₁.code = req₂.code) :
    verdictOf (analyze_code st req₁) = verdictOf (analyze_code st req₂) :=
  analyze_code_verdict_congr st req₁ req₂ h

/-- C4 witness: two concrete requests with the same code. -/
theorem analyze_deterministic_in_code_witness :
    verdictOf (analyze_code stLoaded reqA) = verdictOf (analyze_code stLoaded reqB) :=
  analyze_deterministic_in_code stLoaded reqA reqB rfl

/-- C5 counterexample: an exception raised during tokenization is answered
with a 500 whose detail string is the exception's own message appended to
"Analysis failed: " — not a generic message hiding the exception's
content. -/
theorem analyze_error_detail_exposes_exception :
    analyze_code stBoom reqA
      = .error ⟨500, "Analysis failed: division by zero in tensor op"⟩
    ∧ "Analysis failed: division by zero in tensor op" ≠ "Analysis failed" :=
  ⟨rfl, by decide⟩

/-- C5 amended: every exception raised during tokenization or inference is
caught and answered with status 500 and detail `"Analysis failed: "`
followed by the exception's message (so the exception's content is
included, not hidden), and the handler returns rather than crashing. -/
theorem analyze_exception_maps_to_500 (st : ServerState) (tok : Tokenizer)
    (m : Model) (request : CodeAnalysisRequest) (e : String)
    (htok : st.tokenizer = some tok) (hm : st.model = some m)
    (h : hfTokenize tok request.code = .error e
      ∨ ∃ ids, hfTokenize tok request.code = .ok ids ∧ m ids = .error e) :
    analyze_code st request = .error ⟨500, "Analysis failed: " ++ e⟩ := by
  rw [analyze_code_loaded st tok m request htok hm]
  rcases h with h | ⟨ids, hids, h⟩
  · exact analyzeLoaded_tok_error tok m request e h
  · exact analyzeLoaded_model_error tok m request ids e hids h

/-- C5 witness: the amended statement at a concrete raising tokenizer. -/
theorem analyze_exception_maps_to_500_witness :
    analyze_code stBoom reqB
      = .error ⟨500, "Analysis failed: " ++ "division by zero in tensor op"⟩ :=
  analyze_exception_maps_to_500 stBoom tokBoom modelFix reqB
    "division by zero in tensor op" rfl rfl (Or.inl rfl)

/-- C6: on any pair of logits, the class picked by arg-max over the raw
logits carries the larger softmax probability, that probability is at
least one half, and the two softmax probabilities sum to one. -/
theorem argmax_softmax_agree (l : Real × Real) :
    prob2 l (argmax2 l) = max (prob2 l 0) (prob2 l 1)
    ∧ 1 / 2 ≤ prob2 l (argmax2 l)
    ∧ prob2 l 0 + prob2 l 1 = 1 :=
  ⟨prob2_argmax_eq_max l, prob2_argmax_ge_half l, prob2_sum l⟩

/-- C7: a code string tokenizing to more than 512 tokens does not error:
the id sequence handed to the model is the 512-token truncation, and the
handler still returns a well-formed response built from the forward pass
on the truncated sequence. -/
theorem analyze_truncates_long_input (st : ServerState) (tok : Tokenizer)
    (m : Model) (request : CodeAnalysisRequest) (ids : List Nat)
    (logits : Real × Real)
    (htok : st.tokenizer = some tok) (hm : st.model = some m)
    (hraw : tok request.code = .ok ids) (hlen : 512 < ids.length)
    (hlog : m (ids.take 512) = .ok logits) :
    hfTokenize tok request.code = .ok (ids.take 512)
    ∧ (ids.take 512).length = 512
    ∧ analyze_code st request = .ok (responseOf logits request.filename)
    ∧ WellFormedResponse request (responseOf logits request.filename) := by
  have hids : hfTokenize tok request.code = .ok (ids.take 512) := by
    unfold hfTokenize
    rw [hraw]
    rfl
  refine ⟨hids, ?_, ?_, responseOf_wellformed logits request⟩
  · rw [List.length_take]
    omega
  · rw [analyze_code_loaded st tok m request htok hm]
    exact analyzeLoaded_ok_responseOf tok m request (ids.take 512) logits hids hlog

/-- C7 witness: a concrete tokenizer producing 600 ids. -/
theorem analyze_truncates_long_input_witness :
    hfTokenize tokLong reqA.code = .ok ((List.replicate 600 7).take 512)
    ∧ ((List.replicate 600 7).take 512).length = 512
    ∧ analyze_code stLong reqA = .ok (responseOf (0, 1) reqA.filename) :=
  have h := analyze_truncates_long_input stLong tokLong modelFix reqA
    (List.replicate 600 7) (0, 1) rfl rfl rfl (by rw [List.length_replicate]; omega) rfl
  ⟨h.1, h.2.1, h.2.2.1⟩

/-- C8: no `analyze` request mutates the shared Model Resource: the
handler leaves the tokenizer, model and device globals exactly as they
were, and its response is a pure function of that state and the request. -/
theorem analyze_preserves_globals (st : ServerState) (request : CodeAnalysisRequest) :
    (analyzeHandler st request).2 = st
    ∧ (analyzeHandler st request).2.tokenizer = st.tokenizer
    ∧ (analyzeHandler st request).2.model = st.model
    ∧ (analyzeHandler st request).2.device = st.device
    ∧ (analyzeHandler st request).1 = analyze_code st request :=
  ⟨rfl, rfl, rfl, rfl, rfl⟩

/-- C9: with the resource loaded, an empty `code` string is accepted: the
handler applies no emptiness validation (it runs the exact same loaded
pipeline), any error it could return has status 500 (never a client
error), and when the model produces a verdict on the empty input that
verdict is returned as is — nothing pins a fixed "SAFE" answer. -/
theorem analyze_accepts_empty_code (st : ServerState) (tok : Tokenizer)
    (m : Model) (request : CodeAnalysisRequest)
    (htok : st.tokenizer = some tok) (hm : st.model = some m)
    (hcode : request.code = "") :
    analyze_code st request = analyzeLoaded tok m request
    ∧ (∀ err, analyze_code st request = .error err → err.status_code = 500)
    ∧ (∀ ids logits, hfTokenize tok "" = .ok ids → m ids = .ok logits →
        analyze_code st request = .ok (responseOf logits request.filename)) := by
  have hload := analyze_code_loaded st tok m request htok hm
  refine ⟨hload, ?_, ?_⟩
  · intro err herr
    rw [hload] at herr
    exact analyzeLoaded_error_status tok m request err herr
  · intro ids logits hids hlog
    rw [hload]
    rw [← hcode] at hids
    exact analyzeLoaded_ok_responseOf tok m request ids logits hids hlog

/-- C9 witness: the empty-code request against the loaded fixtures. -/
theorem analyze_accepts_empty_code_witness :
    analyze_code stLoaded reqEmpty = analyzeLoaded tokFix modelFix reqEmpty
    ∧ analyze_code stLoaded reqEmpty = .ok (responseOf (0, 1) reqEmpty.filename) :=
  have h := analyze_accepts_empty_code stLoaded tokFix modelFix reqEmpty rfl rfl rfl
  ⟨h.1, h.2.2 [101, 2023, 102] (0, 1) rfl rfl⟩

/-- C10: the filename field has no influence on the verdict: two requests
with identical code and different filenames get identical `is_vulnerable`,
`confidence` and `prediction`, and each successful response echoes its own
request's filename verbatim. -/
theorem filename_no_influence (st : ServerState)
    (req₁ req₂ : CodeAnalysisRequest)
    (hcode : req₁.code = req₂.code) (_hfn : req₁.filename ≠ req₂.filename) :
    verdictOf (analyze_code st req₁) = verdictOf (analyze_code st req₂)
    ∧ (∀ resp, analyze_code st req₁ = .ok resp → resp.filename = req₁.filename)
    ∧ (∀ resp, analyze_code st req₂ = .ok resp → resp.filename = req₂.filename) :=
  ⟨analyze_code_verdict_congr st req₁ req₂ hcode,
    fun resp h => analyze_code_ok_filename st req₁ resp h,
    fun resp h => analyze_code_ok_filename st req₂ resp h⟩

/-- C10 witness: concrete requests differing only in filename. -/
theorem filename_no_influence_witness :
    verdictOf (analyze_code stLoaded reqA) = verdictOf (analyze_code stLoaded reqB)
    ∧ (∀ resp, analyze_code stLoaded reqA = .ok resp → resp.filename = reqA.filename) :=
  have h := filename_no_influence stLoaded reqA reqB rfl (by decide)
  ⟨h.1, h.2.1⟩
